import Mathlib

/-!
Verification of the digest job lifecycle of the omnivore repository:
job submission and status retrieval (`digestRouter`), the redis-backed
job state store (`getDigest` / `writeDigest`), the GraphQL usage-limit
plugin (`usageLimitPlugin`), the feedback endpoint, and the mobile
viewer fetcher. Machine integers, dates and uuids are modelled as
`Nat` / `String`; the external collaborators (token resolution, user
lookup, entitlement store, task queue, analytics sink, redis client)
are modelled as explicit inputs and output traces.
-/

namespace Omnivore

/-- Job lifecycle states of the generated GraphQL `TaskState` enum used
by the digest service. -/
inductive TaskState where
  | Pending
  | Running
  | Succeeded
  | Failed
deriving DecidableEq, Repr

/-- A digest chapter (`Chapter` interface in the digest service). -/
structure Chapter where
  title : String
  id : String
  url : String
  wordCount : Nat
  thumbnail : Option String := none
deriving DecidableEq, Repr

/-- Structured speech-file descriptor from the external text-to-speech
handler; treated as opaque data. -/
abbrev SpeechFile := String

/-- The `Digest` record held in the job state store (digest service).
`createdAt` is an epoch timestamp in seconds. -/
structure Digest where
  id : String
  jobState : TaskState
  createdAt : Option Nat := none
  description : Option String := none
  byline : Option String := none
  url : Option String := none
  title : Option String := none
  content : Option String := none
  chapters : Option (List Chapter) := none
  urlsToAudio : Option (List String) := none
  speechFiles : Option (List SpeechFile) := none
deriving DecidableEq, Repr

/-- Model of the redis keyed store with expiry: an association list of
key, value and absolute expiry time. `set` with `EX ttl` stores expiry
`now + ttl`; `get` at time `now` returns the value only while
`now < expiry`, matching redis passive expiry. -/
structure RedisStore where
  entries : List (String × Digest × Nat)
deriving DecidableEq, Repr

/-- Redis `GET key` at absolute time `now`. -/
def RedisStore.get (s : RedisStore) (now : Nat) (k : String) : Option Digest :=
  match s.entries.find? (fun e => e.1 == k) with
  | some (_, v, exp) => if now < exp then some v else none
  | none => none

/-- Redis `SET key value EX ttl` at absolute time `now`: replaces any
entry for the key and arms expiry at `now + ttl`. -/
def RedisStore.set (s : RedisStore) (now : Nat) (k : String) (v : Digest)
    (ttl : Nat) : RedisStore :=
  ⟨(k, v, now + ttl) :: s.entries.filter (fun e => e.1 != k)⟩

/-- Key under which a user's digest job record is stored (`digestKey`). -/
def digestKey (userId : String) : String := "digest:" ++ userId

/-- `getDigest` of the digest service: read and decode the record for the
user, `none` when absent or expired. -/
def getDigest (store : RedisStore) (now : Nat) (userId : String) : Option Digest :=
  store.get now (digestKey userId)

/-- `writeDigest` of the digest service: serialize the record and store it
under the user's key with a one-week (`60 * 60 * 24 * 7` seconds) expiry. -/
def writeDigest (store : RedisStore) (now : Nat) (userId : String)
    (digest : Digest) : RedisStore :=
  store.set now (digestKey userId) digest (60 * 60 * 24 * 7)

/-- Feature names consulted by the digest router (`FeatureName.AIDigest`). -/
inductive FeatureName where
  | AIDigest
deriving DecidableEq, Repr

/-- Outcome of `getClaimsByToken` on the request's token: the call can
throw, resolve to no claims, or produce claims carrying the uid. -/
inductive ClaimsResult where
  | threw
  | missing
  | ok (uid : String)
deriving DecidableEq, Repr

/-- The external collaborators of one request, as data: the token
resolution outcome, the set of active users (`findActiveUser`), the
granted features (`findGrantedFeatureByName`), and the server
environment name used by the analytics event. -/
structure AuthEnv where
  claims : ClaimsResult
  activeUsers : List String
  grants : List (FeatureName × String)
  apiEnv : String
deriving DecidableEq, Repr

/-- Result of the shared authorization preamble of the three digest
routes: claims are resolved (401 on throw or missing claims), the user
must be active (401), and the `ai-digest` feature must be granted (403). -/
inductive AuthCheck where
  | unauthorized
  | forbidden
  | authed (uid : String)
deriving DecidableEq, Repr

/-- The authorization preamble repeated verbatim at the top of the three
digest route handlers. -/
def authenticate (env : AuthEnv) : AuthCheck :=
  match env.claims with
  | ClaimsResult.threw => AuthCheck.unauthorized
  | ClaimsResult.missing => AuthCheck.unauthorized
  | ClaimsResult.ok uid =>
    if uid ∈ env.activeUsers then
      if (FeatureName.AIDigest, uid) ∈ env.grants then AuthCheck.authed uid
      else AuthCheck.forbidden
    else AuthCheck.unauthorized

/-- The external `CreateDigestJobSchedule` descriptor, treated as opaque. -/
abbrev CreateDigestJobSchedule := String

/-- Body of the create-digest request (`CreateDigestRequest`). -/
structure CreateDigestRequest where
  voices : Option (List String) := none
  language : Option String := none
  rate : Option String := none
  schedule : Option CreateDigestJobSchedule := none
  libraryItemIds : Option (List String) := none
deriving DecidableEq, Repr

/-- The job request handed to the enqueue collaborator:
`{ id: uuid(), userId, ...data }`. -/
structure DigestJobRequest where
  id : String
  userId : String
  voices : Option (List String) := none
  language : Option String := none
  rate : Option String := none
  schedule : Option CreateDigestJobSchedule := none
  libraryItemIds : Option (List String) := none
deriving DecidableEq, Repr

/-- HTTP response bodies produced by the digest routes: `sendStatus`
sends no payload, `send(digest)` sends the full record, and the running
branch of the status route sends exactly the two fields
`{ jobId, jobState }`. -/
inductive RespBody where
  | empty
  | digest (d : Digest)
  | statusOnly (jobId : String) (jobState : TaskState)
deriving DecidableEq, Repr

/-- An HTTP response: status code and body. -/
structure Response where
  code : Nat
  body : RespBody
deriving DecidableEq, Repr

/-- Modelled from the spec: `enqueueCreateDigest` is imported from
`../utils/createTask`, whose source is not available; per the spec it
hands the job request to the external task queue, persists the new
`DigestJob` record (the generated job id, state Pending, `createdAt`
set at creation) to the job state store, and returns the new record,
which the router sends back with status 201. The enqueue invocation
itself is traced at the call site in `submitV1`. -/
def enqueueCreateDigest (store : RedisStore) (now : Nat)
    (jobReq : DigestJobRequest) : RedisStore × Digest :=
  let record : Digest := { id := jobReq.id, jobState := TaskState.Pending,
                           createdAt := some now }
  (writeDigest store now jobReq.userId record, record)

/-- `POST /v1` of `digestRouter` (create digest): authorization preamble,
then the idempotency guard — 202 when the stored job state is Running —
otherwise enqueue a job with a fresh id and answer 201 with the new
record. Returns the response, the resulting store, and the trace of
job requests handed to the enqueue collaborator. `freshId` stands for
the `uuid()` call. -/
def submitV1 (env : AuthEnv) (store : RedisStore) (now : Nat)
    (freshId : String) (body : CreateDigestRequest) :
    Response × RedisStore × List DigestJobRequest :=
  match authenticate env with
  | AuthCheck.unauthorized => (⟨401, RespBody.empty⟩, store, [])
  | AuthCheck.forbidden => (⟨403, RespBody.empty⟩, store, [])
  | AuthCheck.authed userId =>
    if (getDigest store now userId).map (·.jobState) = some TaskState.Running then
      (⟨202, RespBody.empty⟩, store, [])
    else
      let jobReq : DigestJobRequest :=
        { id := freshId, userId := userId, voices := body.voices,
          language := body.language, rate := body.rate,
          schedule := body.schedule, libraryItemIds := body.libraryItemIds }
      let result := enqueueCreateDigest store now jobReq
      (⟨201, RespBody.digest result.2⟩, result.1, [jobReq])

/-- `GET /v1` of `digestRouter` (get digest status): authorization
preamble, 404 when no record is stored, the two-field
`{ jobId, jobState }` payload while the job is Running, and the full
stored record otherwise. The store is returned unchanged: the handler
performs no write. -/
def getDigestV1 (env : AuthEnv) (store : RedisStore) (now : Nat) :
    Response × RedisStore :=
  match authenticate env with
  | AuthCheck.unauthorized => (⟨401, RespBody.empty⟩, store)
  | AuthCheck.forbidden => (⟨403, RespBody.empty⟩, store)
  | AuthCheck.authed userId =>
    match getDigest store now userId with
    | none => (⟨404, RespBody.empty⟩, store)
    | some digest =>
      if digest.jobState = TaskState.Running then
        (⟨200, RespBody.statusOnly digest.id digest.jobState⟩, store)
      else
        (⟨200, RespBody.digest digest⟩, store)

/-- Values of the untyped JSON request body of the feedback route. -/
inductive JsValue where
  | num (n : Int)
  | str (s : String)
  | strList (xs : List String)
deriving DecidableEq, Repr

/-- An untyped JSON object, as the feedback route receives `req.body`. -/
abbrev JsObject := List (String × JsValue)

/-- Key membership in a JSON object (the javascript `in` operator). -/
def hasKey (o : JsObject) (k : String) : Bool :=
  o.any (fun e => e.1 == k)

/-- The javascript `delete o.k`: remove the key from the object. -/
def deleteKey (o : JsObject) (k : String) : JsObject :=
  o.filter (fun e => e.1 != k)

/-- `isFeedback` type guard: the body must contain the five rating
fields; only key presence is tested. -/
def isFeedback (data : JsObject) : Bool :=
  hasKey data "digestRating" &&
  hasKey data "rankingRating" &&
  hasKey data "summaryRating" &&
  hasKey data "voiceRating" &&
  hasKey data "musicRating"

/-- An event handed to the analytics collaborator (`analytics.capture`). -/
structure AnalyticsEvent where
  distinctId : String
  event : String
  properties : JsObject
deriving DecidableEq, Repr

/-- `POST /v1/feedback` of `digestRouter`: authorization preamble, the
`isFeedback` shape check (400 on failure), then the comment field is
deleted and the rest is forwarded to analytics with the user id, the
fixed event name and the server environment; the route answers 200.
Returns the response and the trace of captured analytics events. -/
def feedbackV1 (env : AuthEnv) (body : JsObject) :
    Response × List AnalyticsEvent :=
  match authenticate env with
  | AuthCheck.unauthorized => (⟨401, RespBody.empty⟩, [])
  | AuthCheck.forbidden => (⟨403, RespBody.empty⟩, [])
  | AuthCheck.authed userId =>
    if isFeedback body then
      let feedback := deleteKey body "comment"
      (⟨200, RespBody.empty⟩,
        [{ distinctId := userId, event := "digest_feedback",
           properties := feedback ++ [("env", JsValue.str env.apiEnv)] }])
    else
      (⟨400, RespBody.empty⟩, [])

/-- Daily limit hardcoded in `usageLimitPlugin`. -/
def MAX_SENT_EMAIL_PER_DAY : Nat := 3

/-- Modelled from the spec: the usage ledger behind
`countDailyServiceUsage` / `createServiceUsage`
(`./services/service_usage`, whose source is not available) — a counter
keyed by (userId, actionName, calendarDay). -/
structure UsageStore where
  counts : List ((String × String × Nat) × Nat)
deriving DecidableEq, Repr

/-- Modelled from the spec: `countDailyServiceUsage` reads today's
counter for the user and action, zero when absent. -/
def countDailyServiceUsage (st : UsageStore) (userId actionName : String)
    (day : Nat) : Nat :=
  match st.counts.find? (fun e => e.1 == (userId, actionName, day)) with
  | some e => e.2
  | none => 0

/-- Modelled from the spec: `createServiceUsage` increments today's
counter for the user and action. -/
def createServiceUsage (st : UsageStore) (userId actionName : String)
    (day : Nat) : UsageStore :=
  ⟨((userId, actionName, day),
    countDailyServiceUsage st userId actionName day + 1) ::
    st.counts.filter (fun e => e.1 != (userId, actionName, day))⟩

/-- One GraphQL request as seen by `usageLimitPlugin`: the uid from the
claims (absent when unauthenticated), whether the query text contains
the `replyToEmail` action, and how execution went — whether the
response carried GraphQL errors and whether `data.replyToEmail`
carried error codes. -/
structure GqlRequest where
  userId : Option String
  queryHasAction : Bool
  execErrors : Bool
  replyErrorCodes : Bool
deriving DecidableEq, Repr

/-- Outcome of one request through `usageLimitPlugin`: rejected by the
limit check in `requestDidStart` before execution, or executed to the
point of sending a response. -/
inductive RequestOutcome where
  | rejectedAtStart
  | completed
deriving DecidableEq, Repr

/-- `usageLimitPlugin` of `apollo.ts` on one request: in
`requestDidStart`, when a uid is present and the query contains
`replyToEmail`, the daily count is read and the request is rejected
(an error is thrown, so execution and the response hooks never run)
once the count has reached `MAX_SENT_EMAIL_PER_DAY`; otherwise in
`willSendResponse` the counter is incremented only when the uid is
present, the query contains the action, and the response carried
neither GraphQL errors nor `replyToEmail` error codes. -/
def usageLimitPlugin (st : UsageStore) (day : Nat) (req : GqlRequest) :
    RequestOutcome × UsageStore :=
  match req.userId with
  | none => (RequestOutcome.completed, st)
  | some uid =>
    if req.queryHasAction = true ∧
        MAX_SENT_EMAIL_PER_DAY ≤ countDailyServiceUsage st uid "replyToEmail" day then
      (RequestOutcome.rejectedAtStart, st)
    else if req.queryHasAction = true ∧ req.execErrors = false ∧
        req.replyErrorCodes = false then
      (RequestOutcome.completed, createServiceUsage st uid "replyToEmail" day)
    else
      (RequestOutcome.completed, st)

/-- A feature as the server reports it in `featureList`. -/
structure Feature where
  name : String
  enabled : Bool
deriving DecidableEq, Repr

/-- The server-side user payload the viewer query selects from. -/
structure ServerUser where
  id : String
  username : String
  name : String
  pictureUrl : Option String := none
  intercomHash : Option String := none
  featureList : List Feature := []
deriving DecidableEq, Repr

/-- `ViewerInternal` constructed by the mobile client's `fetchViewer`. -/
structure ViewerInternal where
  userID : String
  username : String
  name : String
  profileImageURL : Option String
  intercomHash : Option String
  digestEnabled : Option Bool
deriving DecidableEq, Repr

/-- The selection inside `fetchViewer`: builds `ViewerInternal` from the
server payload; `digestEnabled` is the literal `true` (the feature-list
check is commented out in the source). -/
def fetchViewerSelection (u : ServerUser) : ViewerInternal :=
  { userID := u.id, username := u.username, name := u.name,
    profileImageURL := u.pictureUrl, intercomHash := u.intercomHash,
    digestEnabled := some true }

/-- The `Viewer` record persisted to the mobile local store. -/
structure Viewer where
  userID : String
  username : String
  name : String
  profileImageURL : Option String
  digestEnabled : Bool
deriving DecidableEq, Repr

/-- `ViewerInternal.persist`: the fields copied onto the local `Viewer`
record; `digestEnabled` falls back to `false` when absent. -/
def ViewerInternal.persist (v : ViewerInternal) : Viewer :=
  { userID := v.userID, username := v.username, name := v.name,
    profileImageURL := v.profileImageURL,
    digestEnabled := v.digestEnabled.getD false }

/-- A request environment in which the user authenticates and holds the
digest feature grant. -/
def envOk (uid : String) : AuthEnv :=
  { claims := ClaimsResult.ok uid, activeUsers := [uid],
    grants := [(FeatureName.AIDigest, uid)], apiEnv := "demo" }

/-- A stored job record in state Pending with id J. -/
def pendingRecordC1 : Digest := { id := "J", jobState := TaskState.Pending }

/-- A store holding the Pending record for user u1, far from expiry. -/
def storeC1 : RedisStore := ⟨[(digestKey "u1", pendingRecordC1, 1000)]⟩

/-- A stored job record in state Running with id R. -/
def runningRecord : Digest := { id := "R", jobState := TaskState.Running }

/-- A store holding the Running record for user u1, far from expiry. -/
def storeRunning : RedisStore := ⟨[(digestKey "u1", runningRecord, 1000)]⟩

/-- A completed digest record with result fields populated. -/
def succeededRecord : Digest :=
  { id := "S", jobState := TaskState.Succeeded, createdAt := some 11,
    title := some "Weekly Digest", content := some "text",
    chapters := some [{ title := "ch1", id := "c1", url := "u", wordCount := 42 }],
    urlsToAudio := some ["audio"] }

/-- An environment whose user is active but lacks the feature grant. -/
def envNoGrant : AuthEnv :=
  { claims := ClaimsResult.ok "u5", activeUsers := ["u5"], grants := [],
    apiEnv := "demo" }

/-- A usage-ledger state holding three recorded completions for user u6. -/
def usageDemoState : UsageStore :=
  createServiceUsage
    (createServiceUsage
      (createServiceUsage ⟨[]⟩ "u6" "replyToEmail" 19800)
      "u6" "replyToEmail" 19800)
    "u6" "replyToEmail" 19800

/-- A replyToEmail request from user u6 whose execution succeeds. -/
def usageDemoRequest : GqlRequest :=
  { userId := some "u6", queryHasAction := true, execErrors := false,
    replyErrorCodes := false }

/-- A replyToEmail request from user u6 whose execution fails with
GraphQL errors. -/
def usageFailedRequest : GqlRequest :=
  { userId := some "u6", queryHasAction := true, execErrors := true,
    replyErrorCodes := false }

/-- A replyToEmail request from user u6 whose response carries no
GraphQL errors but whose replyToEmail payload reports error codes —
the action itself failed. -/
def usageErrorCodesRequest : GqlRequest :=
  { userId := some "u6", queryHasAction := true, execErrors := false,
    replyErrorCodes := true }

/-- A feedback body carrying all five ratings and a free-text comment. -/
def feedbackFull : JsObject :=
  [("digestRating", JsValue.num 5), ("rankingRating", JsValue.num 4),
   ("summaryRating", JsValue.num 3), ("voiceRating", JsValue.num 2),
   ("musicRating", JsValue.num 1), ("comment", JsValue.str "nice")]

/-- The same feedback body with a different comment. -/
def feedbackFullOther : JsObject :=
  [("digestRating", JsValue.num 5), ("rankingRating", JsValue.num 4),
   ("summaryRating", JsValue.num 3), ("voiceRating", JsValue.num 2),
   ("musicRating", JsValue.num 1), ("comment", JsValue.str "bad")]

/-- A feedback body missing the voiceRating field. -/
def feedbackMissingVoice : JsObject :=
  [("digestRating", JsValue.num 5), ("rankingRating", JsValue.num 4),
   ("summaryRating", JsValue.num 3), ("musicRating", JsValue.num 1)]

end Omnivore

namespace Omnivore

theorem getDigest_writeDigest_self (store : RedisStore) (now t : Nat)
    (uid : String) (d : Digest) :
    getDigest (writeDigest store now uid d) t uid =
      if t < now + 60 * 60 * 24 * 7 then some d else none := by
  simp [getDigest, writeDigest, RedisStore.get, RedisStore.set, List.find?]

/-- C10: for every server payload, the mobile client's viewer selection
hardcodes `digestEnabled` to true regardless of the reported feature
list, and the persisted local `Viewer` record therefore always carries
`digestEnabled = true`. -/
theorem fetchViewer_digestEnabled_always_true (u : ServerUser) :
    (fetchViewerSelection u).digestEnabled = some true ∧
    ((fetchViewerSelection u).persist).digestEnabled = true :=
  ⟨rfl, rfl⟩

/-- C3: when the stored job is Running, `GET /v1` answers 200 with a
payload holding exactly the two fields jobId and jobState and no result
fields; when the stored job is in any other state, it answers 200 with
the full stored record; and the handler never writes to the job state
store. -/
theorem getStatus_running_two_fields_and_pure (env : AuthEnv)
    (store : RedisStore) (now : Nat) (uid : String) (d : Digest)
    (hauth : authenticate env = AuthCheck.authed uid)
    (hget : getDigest store now uid = some d) :
    (d.jobState = TaskState.Running →
      getDigestV1 env store now =
        (⟨200, RespBody.statusOnly d.id TaskState.Running⟩, store)) ∧
    (d.jobState ≠ TaskState.Running →
      getDigestV1 env store now = (⟨200, RespBody.digest d⟩, store)) ∧
    (∀ env2 store2 now2, (getDigestV1 env2 store2 now2).2 = store2) := by
  refine ⟨?_, ?_, ?_⟩
  · intro hrun
    simp [getDigestV1, hauth, hget, hrun]
  · intro hnrun
    simp [getDigestV1, hauth, hget, hnrun]
  · intro env2 store2 now2
    unfold getDigestV1
    cases h : authenticate env2 with
    | unauthorized => rfl
    | forbidden => rfl
    | authed u =>
      dsimp only
      cases hg : getDigest store2 now2 u with
      | none => rfl
      | some d2 =>
        dsimp only
        by_cases hr : d2.jobState = TaskState.Running <;> simp [hr]

/-- Witness for C3 at a concrete Running record. -/
theorem getStatus_running_two_fields_witness :
    authenticate (envOk "u1") = AuthCheck.authed "u1" ∧
    getDigest storeRunning 0 "u1" = some runningRecord ∧
    runningRecord.jobState = TaskState.Running ∧
    getDigestV1 (envOk "u1") storeRunning 0 =
      (⟨200, RespBody.statusOnly "R" TaskState.Running⟩, storeRunning) :=
  ⟨by decide, by decide, by decide,
    (getStatus_running_two_fields_and_pure (envOk "u1") storeRunning 0 "u1"
      runningRecord (by decide) (by decide)).1 (by decide)⟩

/-- C4: a record written by the worker through `writeDigest` in state
Succeeded is returned unchanged, field for field, by `getDigest` before
expiry, and `GET /v1` then answers 200 with exactly that record: the
write-then-read round trip is the identity on the record. -/
theorem writeDigest_getDigest_roundtrip (store : RedisStore) (now t : Nat)
    (uid : String) (d : Digest) (env : AuthEnv)
    (hs : d.jobState = TaskState.Succeeded)
    (hauth : authenticate env = AuthCheck.authed uid)
    (_h1 : now ≤ t) (h2 : t < now + 60 * 60 * 24 * 7) :
    getDigest (writeDigest store now uid d) t uid = some d ∧
    getDigestV1 env (writeDigest store now uid d) t =
      (⟨200, RespBody.digest d⟩, writeDigest store now uid d) := by
  have hget := getDigest_writeDigest_self store now t uid d
  rw [if_pos h2] at hget
  refine ⟨hget, ?_⟩
  simp [getDigestV1, hauth, hget, hs]

/-- Witness for C4 at a concrete Succeeded record. -/
theorem writeDigest_getDigest_roundtrip_witness :
    succeededRecord.jobState = TaskState.Succeeded ∧
    authenticate (envOk "u4") = AuthCheck.authed "u4" ∧
    (10 : Nat) ≤ 500 ∧ (500 : Nat) < 10 + 60 * 60 * 24 * 7 ∧
    getDigest (writeDigest ⟨[]⟩ 10 "u4" succeededRecord) 500 "u4" =
      some succeededRecord :=
  ⟨by decide, by decide, by decide, by decide,
    (writeDigest_getDigest_roundtrip ⟨[]⟩ 10 500 "u4" succeededRecord
      (envOk "u4") (by decide) (by decide) (by decide) (by decide)).1⟩

/-- C9: every `writeDigest` arms an expiry of exactly
`60 * 60 * 24 * 7 = 604800` seconds regardless of the record's state,
and once seven days have elapsed with no further writes the record
reads back as absent and `GET /v1` answers 404. -/
theorem writeDigest_seven_day_expiry (store : RedisStore) (now t : Nat)
    (uid : String) (d : Digest) (env : AuthEnv)
    (hauth : authenticate env = AuthCheck.authed uid)
    (hexp : now + 60 * 60 * 24 * 7 ≤ t) :
    (writeDigest store now uid d).entries.head? =
      some (digestKey uid, d, now + 604800) ∧
    getDigest (writeDigest store now uid d) t uid = none ∧
    getDigestV1 env (writeDigest store now uid d) t =
      (⟨404, RespBody.empty⟩, writeDigest store now uid d) := by
  have hget := getDigest_writeDigest_self store now t uid d
  rw [if_neg (by omega)] at hget
  refine ⟨?_, hget, ?_⟩
  · simp [writeDigest, RedisStore.set]
  · simp [getDigestV1, hauth, hget]

/-- Witness for C9: a record written at time 0 is gone at seven days. -/
theorem writeDigest_seven_day_expiry_witness :
    authenticate (envOk "u9") = AuthCheck.authed "u9" ∧
    (0 : Nat) + 60 * 60 * 24 * 7 ≤ 604800 ∧
    getDigest (writeDigest ⟨[]⟩ 0 "u9" succeededRecord) 604800 "u9" = none ∧
    getDigestV1 (envOk "u9") (writeDigest ⟨[]⟩ 0 "u9" succeededRecord) 604800 =
      (⟨404, RespBody.empty⟩, writeDigest ⟨[]⟩ 0 "u9" succeededRecord) :=
  ⟨by decide, by decide,
    (writeDigest_seven_day_expiry ⟨[]⟩ 0 604800 "u9" succeededRecord
      (envOk "u9") (by decide) (by decide)).2.1,
    (writeDigest_seven_day_expiry ⟨[]⟩ 0 604800 "u9" succeededRecord
      (envOk "u9") (by decide) (by decide)).2.2⟩

/-- C5: when token resolution fails, the user is inactive, or the
feature is not granted, `POST /v1` answers 401 and 403 respectively,
writes nothing to the job state store, and never invokes the enqueue
collaborator; the last two conjuncts tie the response to its cause as
the source orders the checks. -/
theorem submit_auth_failure_no_side_effects (env : AuthEnv)
    (store : RedisStore) (now : Nat) (freshId : String)
    (body : CreateDigestRequest) :
    (authenticate env = AuthCheck.unauthorized →
      submitV1 env store now freshId body =
        (⟨401, RespBody.empty⟩, store, [])) ∧
    (authenticate env = AuthCheck.forbidden →
      submitV1 env store now freshId body =
        (⟨403, RespBody.empty⟩, store, [])) ∧
    (∀ uid, env.claims = ClaimsResult.ok uid → uid ∈ env.activeUsers →
      (FeatureName.AIDigest, uid) ∉ env.grants →
      authenticate env = AuthCheck.forbidden) ∧
    ((env.claims = ClaimsResult.threw ∨ env.claims = ClaimsResult.missing ∨
        ∀ uid, env.claims = ClaimsResult.ok uid → uid ∉ env.activeUsers) →
      authenticate env = AuthCheck.unauthorized) := by
  refine ⟨?_, ?_, ?_, ?_⟩
  · intro h
    simp [submitV1, h]
  · intro h
    simp [submitV1, h]
  · intro uid h1 h2 h3
    simp [authenticate, h1, h2, h3]
  · intro h
    rcases h with h | h | h
    · simp [authenticate, h]
    · simp [authenticate, h]
    · cases hc : env.claims with
      | threw => simp [authenticate, hc]
      | missing => simp [authenticate, hc]
      | ok u => simp [authenticate, hc, h u hc]

/-- Witness for C5: an active user without the feature grant gets 403
with no store write and no enqueue call. -/
theorem submit_auth_failure_witness :
    authenticate envNoGrant = AuthCheck.forbidden ∧
    submitV1 envNoGrant storeC1 0 "K" {} =
      (⟨403, RespBody.empty⟩, storeC1, []) :=
  ⟨by decide,
    (submit_auth_failure_no_side_effects envNoGrant storeC1 0 "K" {}).2.1
      (by decide)⟩

/-- Counterexample to C1 as stated: with a stored job in state Pending
the submit route does not answer 202 with the existing id — it answers
201 and invokes the enqueue collaborator. -/
theorem submit_pending_counterexample :
    getDigest storeC1 0 "u1" = some pendingRecordC1 ∧
    pendingRecordC1.jobState = TaskState.Pending ∧
    (submitV1 (envOk "u1") storeC1 0 "K" {}).1.code = 201 ∧
    (submitV1 (envOk "u1") storeC1 0 "K" {}).2.2 ≠ [] := by
  refine ⟨by decide, by decide, by decide, by decide⟩

/-- C1 amended: only a stored job in state Running triggers the guard —
submit then answers 202 with an empty body (carrying no job id),
creates no new record, and does not invoke the enqueue collaborator;
with any other stored state (Pending included) the route enqueues a
fresh job request under the newly generated id and answers 201. -/
theorem submit_running_guard (env : AuthEnv) (store : RedisStore)
    (now : Nat) (freshId : String) (body : CreateDigestRequest)
    (uid : String)
    (hauth : authenticate env = AuthCheck.authed uid) :
    ((getDigest store now uid).map (·.jobState) = some TaskState.Running →
      submitV1 env store now freshId body =
        (⟨202, RespBody.empty⟩, store, [])) ∧
    ((getDigest store now uid).map (·.jobState) ≠ some TaskState.Running →
      (submitV1 env store now freshId body).1.code = 201 ∧
      (submitV1 env store now freshId body).2.2 =
        [{ id := freshId, userId := uid, voices := body.voices,
           language := body.language, rate := body.rate,
           schedule := body.schedule,
           libraryItemIds := body.libraryItemIds }]) := by
  constructor
  · intro hrun
    simp [submitV1, hauth, hrun]
  · intro hfree
    simp [submitV1, hauth, hfree]

/-- Witness for C1 amended: with a Running record stored, a concrete
submit answers 202 with empty body, leaves the store unchanged, and
enqueues nothing. -/
theorem submit_running_guard_witness :
    authenticate (envOk "u1") = AuthCheck.authed "u1" ∧
    (getDigest storeRunning 0 "u1").map (·.jobState) =
      some TaskState.Running ∧
    submitV1 (envOk "u1") storeRunning 0 "K" {} =
      (⟨202, RespBody.empty⟩, storeRunning, []) :=
  ⟨by decide, by decide,
    (submit_running_guard (envOk "u1") storeRunning 0 "K" {} "u1"
      (by decide)).1 (by decide)⟩

/-- C2: an accepted submit persists the new record in state Pending
under the generated id (superseding whatever record was stored), the
route answers 201 with that record and hands exactly one job request to
the enqueue collaborator, and a status poll immediately afterwards
returns the same record with the same job id. -/
theorem submit_accept_persists_pending (env : AuthEnv) (store : RedisStore)
    (now : Nat) (freshId : String) (body : CreateDigestRequest)
    (uid : String)
    (hauth : authenticate env = AuthCheck.authed uid)
    (hfree : (getDigest store now uid).map (·.jobState) ≠
      some TaskState.Running) :
    ∃ r store2,
      submitV1 env store now freshId body =
        (⟨201, RespBody.digest r⟩, store2,
          [{ id := freshId, userId := uid, voices := body.voices,
             language := body.language, rate := body.rate,
             schedule := body.schedule,
             libraryItemIds := body.libraryItemIds }]) ∧
      r.jobState = TaskState.Pending ∧
      r.id = freshId ∧
      getDigest store2 now uid = some r ∧
      getDigestV1 env store2 now = (⟨200, RespBody.digest r⟩, store2) := by
  refine ⟨{ id := freshId, jobState := TaskState.Pending,
            createdAt := some now },
          writeDigest store now uid
            { id := freshId, jobState := TaskState.Pending,
              createdAt := some now }, ?_, rfl, rfl, ?_, ?_⟩
  · simp [submitV1, hauth, hfree, enqueueCreateDigest]
  · have hget := getDigest_writeDigest_self store now now uid
      { id := freshId, jobState := TaskState.Pending, createdAt := some now }
    rw [if_pos (by omega)] at hget
    exact hget
  · have hget := getDigest_writeDigest_self store now now uid
      { id := freshId, jobState := TaskState.Pending, createdAt := some now }
    rw [if_pos (by omega)] at hget
    simp [getDigestV1, hauth, hget]

/-- Witness for C2: a concrete accepted submit followed by a status
poll returns the freshly persisted Pending record under the new id. -/
theorem submit_accept_persists_pending_witness :
    authenticate (envOk "u2") = AuthCheck.authed "u2" ∧
    (getDigest (⟨[]⟩ : RedisStore) 0 "u2").map (·.jobState) ≠
      some TaskState.Running ∧
    ∃ r store2,
      submitV1 (envOk "u2") ⟨[]⟩ 0 "K2" {} =
        (⟨201, RespBody.digest r⟩, store2,
          [{ id := "K2", userId := "u2" }]) ∧
      r.jobState = TaskState.Pending ∧
      r.id = "K2" ∧
      getDigest store2 0 "u2" = some r ∧
      getDigestV1 (envOk "u2") store2 0 = (⟨200, RespBody.digest r⟩, store2) :=
  ⟨by decide, by decide,
    submit_accept_persists_pending (envOk "u2") ⟨[]⟩ 0 "K2" {} "u2"
      (by decide) (by decide)⟩

/-- C6: for a replyToEmail request, once the user's recorded count for
the day has reached the limit of 3 the request is rejected in
`requestDidStart` before execution and the ledger is untouched; a
request whose execution failed — whether the response carried GraphQL
errors or the replyToEmail payload reported error codes — never
increments the ledger; and a request under the limit whose execution
succeeded without error codes increments the ledger by exactly one
recorded usage. -/
theorem usageLimit_check_and_record (st : UsageStore) (day : Nat)
    (req : GqlRequest) (uid : String)
    (huid : req.userId = some uid)
    (hq : req.queryHasAction = true) :
    (MAX_SENT_EMAIL_PER_DAY ≤ countDailyServiceUsage st uid "replyToEmail" day →
      usageLimitPlugin st day req = (RequestOutcome.rejectedAtStart, st)) ∧
    (req.execErrors = true ∨ req.replyErrorCodes = true →
      (usageLimitPlugin st day req).2 = st) ∧
    (countDailyServiceUsage st uid "replyToEmail" day < MAX_SENT_EMAIL_PER_DAY →
      req.execErrors = false → req.replyErrorCodes = false →
      usageLimitPlugin st day req =
        (RequestOutcome.completed,
          createServiceUsage st uid "replyToEmail" day)) := by
  refine ⟨?_, ?_, ?_⟩
  · intro hlim
    simp [usageLimitPlugin, huid, hq, hlim]
  · intro hfail
    by_cases hlim : MAX_SENT_EMAIL_PER_DAY ≤
        countDailyServiceUsage st uid "replyToEmail" day
    · simp [usageLimitPlugin, huid, hq, hlim]
    · rcases hfail with herr | hrc
      · simp [usageLimitPlugin, huid, hq, hlim, herr]
      · simp [usageLimitPlugin, huid, hq, hlim, hrc]
  · intro hlt he hr
    simp [usageLimitPlugin, huid, hq, he, hr, Nat.not_le.mpr hlt]

/-- Witness for C6: after three recorded completions the fourth attempt
that day observes the quota exhausted and is rejected with the ledger
unchanged, while executions failing with GraphQL errors or with
replyToEmail error codes both leave the ledger unchanged. -/
theorem usageLimit_check_and_record_witness :
    countDailyServiceUsage usageDemoState "u6" "replyToEmail" 19800 = 3 ∧
    usageLimitPlugin usageDemoState 19800 usageDemoRequest =
      (RequestOutcome.rejectedAtStart, usageDemoState) ∧
    (usageLimitPlugin ⟨[]⟩ 19800 usageFailedRequest).2 = (⟨[]⟩ : UsageStore) ∧
    (usageLimitPlugin ⟨[]⟩ 19800 usageErrorCodesRequest).2 =
      (⟨[]⟩ : UsageStore) :=
  ⟨by decide,
    (usageLimit_check_and_record usageDemoState 19800 usageDemoRequest "u6"
      (by decide) (by decide)).1 (by decide),
    (usageLimit_check_and_record ⟨[]⟩ 19800 usageFailedRequest "u6"
      (by decide) (by decide)).2.1 (Or.inl (by decide)),
    (usageLimit_check_and_record ⟨[]⟩ 19800 usageErrorCodesRequest "u6"
      (by decide) (by decide)).2.1 (Or.inr (by decide))⟩

/-- C7: a feedback body missing any of the five required rating fields
is answered 400 with no analytics event captured, and the `isFeedback`
guard is a function of key presence alone — two bodies with the same
keys are accepted or rejected alike, whatever their values. -/
theorem feedback_missing_field_rejected (env : AuthEnv) (body : JsObject)
    (uid f : String)
    (hauth : authenticate env = AuthCheck.authed uid)
    (hf : f ∈ ["digestRating", "rankingRating", "summaryRating",
               "voiceRating", "musicRating"])
    (hmiss : hasKey body f = false) :
    feedbackV1 env body = (⟨400, RespBody.empty⟩, []) ∧
    (∀ b1 b2 : JsObject, (∀ k, hasKey b1 k = hasKey b2 k) →
      isFeedback b1 = isFeedback b2) := by
  constructor
  · have hfb : isFeedback body = false := by
      simp only [List.mem_cons, List.not_mem_nil, or_false] at hf
      rcases hf with rfl | rfl | rfl | rfl | rfl <;> simp [isFeedback, hmiss]
    simp [feedbackV1, hauth, hfb]
  · intro b1 b2 hk
    simp [isFeedback, hk]

/-- Witness for C7: a concrete body missing voiceRating is rejected
with 400 and no analytics capture. -/
theorem feedback_missing_field_rejected_witness :
    authenticate (envOk "u7") = AuthCheck.authed "u7" ∧
    hasKey feedbackMissingVoice "voiceRating" = false ∧
    feedbackV1 (envOk "u7") feedbackMissingVoice =
      (⟨400, RespBody.empty⟩, []) :=
  ⟨by decide, by decide,
    (feedback_missing_field_rejected (envOk "u7") feedbackMissingVoice
      "u7" "voiceRating" (by decide) (by decide) (by decide)).1⟩

/-- C8: an accepted feedback submit answers 200 and captures exactly one
analytics event whose properties are the body with the comment field
removed plus the server environment tag — the captured properties never
contain a comment key, and two valid bodies agreeing outside their
comment field produce the same captured event. -/
theorem feedback_strips_comment (env : AuthEnv) (body : JsObject)
    (uid : String)
    (hauth : authenticate env = AuthCheck.authed uid)
    (hvalid : isFeedback body = true) :
    (feedbackV1 env body).1 = ⟨200, RespBody.empty⟩ ∧
    (feedbackV1 env body).2 =
      [{ distinctId := uid, event := "digest_feedback",
         properties := deleteKey body "comment" ++
           [("env", JsValue.str env.apiEnv)] }] ∧
    (∀ ev ∈ (feedbackV1 env body).2,
      hasKey ev.properties "comment" = false) ∧
    (∀ body2, isFeedback body2 = true →
      deleteKey body2 "comment" = deleteKey body "comment" →
      (feedbackV1 env body2).2 = (feedbackV1 env body).2) := by
  have hstrip : hasKey (deleteKey body "comment" ++
      [("env", JsValue.str env.apiEnv)]) "comment" = false := by
    simp only [hasKey, deleteKey, List.any_append, List.any_eq_false,
      Bool.or_eq_false_iff]
    constructor
    · intro x hx
      have hne := (List.mem_filter.mp hx).2
      simpa using hne
    · intro x hx
      simp only [List.mem_singleton] at hx
      subst hx
      show ¬(("env" : String) == "comment") = true
      decide
  refine ⟨?_, ?_, ?_, ?_⟩
  · simp [feedbackV1, hauth, hvalid]
  · simp [feedbackV1, hauth, hvalid]
  · intro ev hev
    simp only [feedbackV1, hauth, hvalid, if_pos] at hev
    simp only [List.mem_singleton] at hev
    subst hev
    exact hstrip
  · intro body2 hvalid2 hdel
    simp [feedbackV1, hauth, hvalid, hvalid2, hdel]

/-- Witness for C8: two concrete valid bodies differing only in their
comment lead to the same single captured event, which carries no
comment key, and both submits answer 200. -/
theorem feedback_strips_comment_witness :
    authenticate (envOk "u8") = AuthCheck.authed "u8" ∧
    isFeedback feedbackFull = true ∧
    isFeedback feedbackFullOther = true ∧
    deleteKey feedbackFullOther "comment" = deleteKey feedbackFull "comment" ∧
    (feedbackV1 (envOk "u8") feedbackFull).1 = ⟨200, RespBody.empty⟩ ∧
    (feedbackV1 (envOk "u8") feedbackFullOther).2 =
      (feedbackV1 (envOk "u8") feedbackFull).2 :=
  ⟨by decide, by decide, by decide, by decide,
    (feedback_strips_comment (envOk "u8") feedbackFull "u8"
      (by decide) (by decide)).1,
    (feedback_strips_comment (envOk "u8") feedbackFull "u8"
      (by decide) (by decide)).2.2.2 feedbackFullOther
      (by decide) (by decide)⟩

end Omnivore
